import Mathlib

/-!
Shallow embedding of `health.go` from esiqveland/go-healthcheck.

The Go package is a health-check registry: named `Checker`s are registered
in a `Registry`; `CheckStatus` evaluates all of them into a `Status`
snapshot; `StatusHandler` serves that snapshot over HTTP.

Modelling choices:
- Go `error` values are `Option String` (`none` = nil error).
- A Go map `map[string]Checker` is an association list in insertion order;
  Go map iteration order is unspecified, and no property proved here
  depends on a particular order.
- A `Checker` in the normal (non-panicking) fragment is a function
  `Unit → Result`; the panic-aware fragment uses `Unit → Except GoPanic Result`
  and an exception-monad version of the aggregation loop, mirroring the fact
  that the Go code installs no `recover` anywhere.
- `panic` in `Register` is modelled by a `RegisterOutcome` that records the
  panic message and the post-state of the registry (the insertion line is
  only reached when no panic fires, exactly as in the source).
- `json.Marshal` is modelled by a `Marshaller` record with one field per
  marshal call site, so its (theoretical) failure can be expressed; the
  instance `goJson` is the total encoder matching Go's actual encoding of
  these concrete types (on which `json.Marshal` never fails).
- The background goroutine of `PeriodicChecker` is modelled by a
  tick-indexed state: `periodicState check n` is the updater's state after
  `n` ticks of the ticker, each tick performing `u.Update(check.Check())`.
-/

/-- Go `error` value: `none` is the nil error. -/
abbrev GoError := Option String

/-- Result of a health check: `type Result struct { Error error; Message string }`. -/
structure Result where
  Error : GoError
  Message : String
deriving DecidableEq

/-- Go zero value of `Result`: nil error, empty message. -/
def Result.zero : Result := { Error := none, Message := "" }

/-- A Checker exposes `Check() Result`; modelled as a result-producing function. -/
abbrev Checker := Unit → Result

/-- Invoke a checker: `v.Check()`. -/
def Checker.Check (c : Checker) : Result := c ()

/-- One entry of the JSON status snapshot:
`type HealthCheck struct { Healthy bool; Message string }`. -/
structure HealthCheck where
  Healthy : Bool
  Message : String
deriving DecidableEq

/-- `type Status map[string]HealthCheck`, as an association list. -/
abbrev Status := List (String × HealthCheck)

/-- `type Registry struct { registeredChecks map[string]Checker }`
(the mutex guards concurrency only and has no sequential content). -/
structure Registry where
  registeredChecks : List (String × Checker)

/-- `func NewRegistry() *Registry`: empty mapping. -/
def NewRegistry : Registry := { registeredChecks := [] }

/-- The keys currently registered (domain of the Go map). -/
def Registry.names (registry : Registry) : List String :=
  registry.registeredChecks.map Prod.fst

/-- Outcome of a `Register` call: the panic message raised, if any, and the
state of the target registry after the call returns or unwinds. -/
structure RegisterOutcome where
  panicMsg : Option String
  post : Registry

/-- Body of `func (registry *Registry) Register(name string, check Checker)`
after the nil-receiver substitution: look up `name`; if present, panic with
"Check already exists: "+name (the map is untouched, since the insertion
statement is after the panic); otherwise insert. -/
def Registry.RegisterCore (registry : Registry) (name : String) (check : Checker) :
    RegisterOutcome :=
  if registry.names.contains name then
    { panicMsg := some ("Check already exists: " ++ name), post := registry }
  else
    { panicMsg := none
      post := { registeredChecks := registry.registeredChecks ++ [(name, check)] } }

/-- `func (registry *Registry) Register`: the receiver is a possibly-nil
pointer; `if registry == nil { registry = DefaultRegistry }` replaces a nil
receiver by the process-wide default registry, whose current state is passed
here as `defaultRegistry`. -/
def Registry.Register (self : Option Registry) (defaultRegistry : Registry)
    (name : String) (check : Checker) : RegisterOutcome :=
  (self.getD defaultRegistry).RegisterCore name check

/-- One step of a sequence of `Register` calls: once a call has panicked,
the panic unwinds and no further call runs. -/
def registerStep (acc : RegisterOutcome) (kv : String × Checker) : RegisterOutcome :=
  match acc.panicMsg with
  | some _ => acc
  | none => acc.post.RegisterCore kv.1 kv.2

/-- A sequence of `Register` calls starting from `NewRegistry`. -/
def registerSeq (entries : List (String × Checker)) : RegisterOutcome :=
  entries.foldl registerStep { panicMsg := none, post := NewRegistry }

/-- `func (registry *Registry) CheckStatus() Status`: for each registered
checker, `res := v.Check()`, `healthy := res.Error == nil`, and the snapshot
entry is `HealthCheck{Healthy: healthy, Message: res.Message}`. -/
def Registry.CheckStatus (registry : Registry) : Status :=
  registry.registeredChecks.map fun kv =>
    (kv.1, { Healthy := (kv.2.Check).Error.isNone, Message := (kv.2.Check).Message })

/-- The `updater` struct: one stored `status Result` field (its mutex guards
concurrency only). -/
structure Updater where
  status : Result

/-- `func (u *updater) Check() Result`: returns the stored status. -/
def Updater.Check (u : Updater) : Result := u.status

/-- `func (u *updater) Update(status Result)`: replaces the stored status. -/
def Updater.Update (_ : Updater) (status : Result) : Updater :=
  { status := status }

/-- `func NewStatusUpdater() Updater`: returns `&updater{}`, whose stored
status is the zero-value `Result`. -/
def NewStatusUpdater : Updater := { status := Result.zero }

/-- State of the updater inside `PeriodicChecker(check, period)` after `n`
ticks of the ticker. `check k` is the value `check.Check()` returns at the
(k+1)-th tick, letting the wrapped checker vary over time. At construction
the updater is `NewStatusUpdater` and the goroutine has not run; each tick
performs `u.Update(check.Check())`. -/
def periodicState (check : Nat → Result) : Nat → Updater
  | 0 => NewStatusUpdater
  | n + 1 => (periodicState check n).Update (check n)

/-- What `Check()` on the value returned by `PeriodicChecker` observes after
`n` ticks have fired. -/
def PeriodicChecker.CheckAt (check : Nat → Result) (n : Nat) : Result :=
  (periodicState check n).Check

/-- An HTTP response as the handler writes it: status code, the two headers
set explicitly by `statusResponse` (Content-Type, Content-Length), and body. -/
structure HttpResponse where
  code : Nat
  contentType : Option String
  contentLength : Option Nat
  body : String
deriving DecidableEq

/-- The response written by the Go standard library's `http.NotFound(w, r)`:
status 404 with the plain-text body "404 page not found" plus a newline
(net/http's `Error` writes the message with `fmt.Fprintln`). -/
def notFoundResponse : HttpResponse :=
  { code := 404
    contentType := some "text/plain; charset=utf-8"
    contentLength := none
    body := "404 page not found\n" }

/-- Escape one character for a JSON string literal (quote and backslash are
the only characters our inputs can need). -/
def jsonEscapeChar (c : Char) : String :=
  if c = '"' then "\\\"" else if c = '\\' then "\\\\" else String.singleton c

/-- Escape the characters of a string for a JSON string literal. -/
def jsonEscapeString (s : String) : String :=
  String.join (s.toList.map jsonEscapeChar)

/-- JSON string literal for `s`. -/
def jsonString (s : String) : String :=
  "\"" ++ jsonEscapeString s ++ "\""

/-- Go encoding of one `HealthCheck` value with its `json:"healthy"` and
`json:"message"` tags. -/
def jsonEncodeHealthCheck (hc : HealthCheck) : String :=
  "\x7b\"healthy\":" ++ (if hc.Healthy then "true" else "false")
    ++ ",\"message\":" ++ jsonString hc.Message ++ "\x7d"

/-- Go encoding of a `Status` map as a JSON object (entries in the list's
order; Go sorts map keys, but no property here depends on entry order). -/
def jsonEncodeStatus (checks : Status) : String :=
  "\x7b" ++ String.intercalate ","
      (checks.map fun kv => jsonString kv.1 ++ ":" ++ jsonEncodeHealthCheck kv.2)
    ++ "\x7d"

/-- Go encoding of the anonymous fallback struct
`struct { ServerError string `+"json tag server_error"+` }` at field value `msg`. -/
def jsonEncodeServerError (msg : String) : String :=
  "\x7b\"server_error\":" ++ jsonString msg ++ "\x7d"

/-- The two `json.Marshal` call sites of `statusResponse`, kept abstract so
that marshal failure (which `statusResponse` handles) is expressible. -/
structure Marshaller where
  marshalStatus : Status → Except String String
  marshalServerError : String → Except String String

/-- The real behaviour of `json.Marshal` on these concrete types: it is
total (it cannot fail on a `map[string]HealthCheck` or on the fallback
struct of one string field). -/
def goJson : Marshaller :=
  { marshalStatus := fun checks => Except.ok (jsonEncodeStatus checks)
    marshalServerError := fun msg => Except.ok (jsonEncodeServerError msg) }

/-- The fixed fallback body produced by marshalling
`struct{ServerError: "Could not parse error message"}`. -/
def serverErrorBody : String :=
  "\x7b\"server_error\":\"Could not parse error message\"\x7d"

/-- `func statusResponse(w, r, status, checks)`: marshal `checks`; on
failure, switch `status` to 500 and marshal the fixed server-error struct;
if that fails too, return without writing anything (`none`); otherwise set
Content-Type and Content-Length and write the body with the final status. -/
def statusResponse (m : Marshaller) (status : Nat) (checks : Status) :
    Option HttpResponse :=
  match m.marshalStatus checks with
  | Except.ok p =>
      some { code := status
             contentType := some "application/json; charset=utf-8"
             contentLength := some p.length
             body := p }
  | Except.error _ =>
      match m.marshalServerError "Could not parse error message" with
      | Except.ok p =>
          some { code := 500
                 contentType := some "application/json; charset=utf-8"
                 contentLength := some p.length
                 body := p }
      | Except.error _ => none

/-- The `isFailing` loop of `StatusHandler`: set `isFailing = true` whenever
an entry is not healthy (no early break in the source). -/
def isFailingLoop (checks : Status) : Bool :=
  checks.foldl (fun acc kv => if !kv.2.Healthy then true else acc) false

/-- `func StatusHandler(w, r)`: on GET, compute the status of the default
registry (passed here as `registry`), derive 200/503 from the `isFailing`
loop and respond via `statusResponse`; on any other method, `http.NotFound`.
`none` means no response was written at all. -/
def StatusHandler (m : Marshaller) (method : String) (registry : Registry) :
    Option HttpResponse :=
  if method = "GET" then
    let checks := registry.CheckStatus
    let status := if isFailingLoop checks then 503 else 200
    statusResponse m status checks
  else
    some notFoundResponse

/-- A Go panic value (its message). -/
abbrev GoPanic := String

/-- A checker whose `Check()` may panic instead of returning. -/
abbrev PChecker := Unit → Except GoPanic Result

/-- The `CheckStatus` loop over possibly-panicking checkers: the source
installs no `recover`, so the first panicking `v.Check()` unwinds out of
`CheckStatus` and the snapshot is abandoned. -/
def checkStatusExc : List (String × PChecker) → Except GoPanic Status
  | [] => Except.ok []
  | (k, v) :: rest =>
      match v () with
      | Except.error p => Except.error p
      | Except.ok res =>
          (checkStatusExc rest).map
            (fun s => (k, { Healthy := res.Error.isNone, Message := res.Message }) :: s)

/-- A checker whose `Check()` panics with message `p`. -/
def panickingChecker (p : GoPanic) : PChecker := fun _ => Except.error p

/-- A concrete healthy checker (nil error, empty message). -/
def cHealthy : Checker := fun _ => Result.zero

/-- A concrete unhealthy checker (non-nil error, message "disk full"). -/
def cUnhealthy : Checker := fun _ => { Error := some "disk full", Message := "disk full" }

/-- A registry with one healthy check. -/
def regAllHealthy : Registry := { registeredChecks := [("a", cHealthy)] }

/-- A registry with one healthy and one unhealthy check. -/
def regOneUnhealthy : Registry :=
  { registeredChecks := [("a", cHealthy), ("b", cUnhealthy)] }

/-- A registration sequence with two distinct names. -/
def regEntries : List (String × Checker) := [("a", cHealthy), ("b", cUnhealthy)]

/-- The `isFailing` fold equals a disjunction of the accumulator with
`any not-healthy`. -/
theorem isFailingLoop_go (checks : Status) (acc : Bool) :
    checks.foldl (fun acc kv => if !kv.2.Healthy then true else acc) acc =
      (acc || checks.any fun kv => !kv.2.Healthy) := by
  induction checks generalizing acc with
  | nil => simp
  | cons kv rest ih =>
      rw [List.foldl_cons, ih, List.any_cons]
      cases h : kv.2.Healthy <;> simp [h]

/-- The `isFailing` loop of `StatusHandler` is exactly `any not-healthy`. -/
theorem isFailingLoop_eq_any (checks : Status) :
    isFailingLoop checks = checks.any fun kv => !kv.2.Healthy := by
  simpa [isFailingLoop] using isFailingLoop_go checks false

/-- Membership in a registry's names decides the `contains` test that
`RegisterCore` performs. -/
theorem names_contains_iff (registry : Registry) (name : String) :
    registry.names.contains name = true ↔ name ∈ registry.names := by
  simp [List.contains]

/-- Folding `registerStep` over entries whose names, together with the
accumulated registry's names, are all distinct, performs every insertion and
panics nowhere. -/
theorem registerSeq_go (entries : List (String × Checker)) (acc : Registry)
    (h : ((acc.registeredChecks ++ entries).map Prod.fst).Nodup) :
    entries.foldl registerStep { panicMsg := none, post := acc } =
      { panicMsg := none
        post := { registeredChecks := acc.registeredChecks ++ entries } } := by
  induction entries generalizing acc with
  | nil => simp
  | cons kv rest ih =>
      have hnotmem : kv.1 ∉ acc.names := by
        intro hmem
        rw [List.map_append] at h
        rcases List.nodup_append.mp h with ⟨-, -, hdisj⟩
        exact hdisj hmem (by simp)
      have hstep :
          registerStep { panicMsg := none, post := acc } kv =
            { panicMsg := none
              post := { registeredChecks := acc.registeredChecks ++ [kv] } } := by
        simp [registerStep, Registry.RegisterCore, hnotmem]
      rw [List.foldl_cons, hstep,
        ih { registeredChecks := acc.registeredChecks ++ [kv] } (by simpa using h)]
      simp

/-- A sequence of registrations with pairwise-distinct names succeeds and
yields exactly those entries. -/
theorem registerSeq_nodup (entries : List (String × Checker))
    (h : (entries.map Prod.fst).Nodup) :
    registerSeq entries = { panicMsg := none, post := { registeredChecks := entries } } := by
  simpa [registerSeq, NewRegistry] using
    registerSeq_go entries NewRegistry (by simpa [NewRegistry] using h)

/-- Looking up a registered name in the snapshot produced by `CheckStatus`
finds that checker's evaluation, provided names are distinct. -/
theorem checkStatus_lookup (entries : List (String × Checker))
    (hn : (entries.map Prod.fst).Nodup) (n : String) (c : Checker)
    (hmem : (n, c) ∈ entries) :
    (Registry.CheckStatus { registeredChecks := entries }).lookup n =
      some { Healthy := (c.Check).Error.isNone, Message := (c.Check).Message } := by
  induction entries with
  | nil => cases hmem
  | cons kv rest ih =>
      have hn2 : kv.1 ∉ rest.map Prod.fst ∧ (rest.map Prod.fst).Nodup := by
        simpa [List.nodup_cons] using hn
      rcases List.mem_cons.mp hmem with heq | htail
      · rw [show kv = (n, c) from heq.symm]
        simp [Registry.CheckStatus, List.lookup]
      · have hinfst : n ∈ rest.map Prod.fst :=
          List.mem_map.mpr ⟨(n, c), htail, rfl⟩
        have hne : (n == kv.1) = false := by
          apply beq_eq_false_iff_ne.mpr
          intro heq2
          exact hn2.1 (heq2 ▸ hinfst)
        simp only [Registry.CheckStatus, List.map_cons, List.lookup, hne]
        exact ih hn2.2 htail

/-- C4: for every Updater and every Result R, update(R) followed immediately
by check() with no intervening update returns exactly R. -/
theorem updater_update_then_check (u : Updater) (R : Result) :
    (u.Update R).Check = R := rfl

/-- C5: the periodic wrapper does not evaluate the wrapped checker at
construction (the zero-tick state is the same whatever the checker is);
before the first tick, check() returns the zero-value Result, which is
healthy (nil error) with an empty message; after n+1 ticks, check() returns
the wrapped checker's output at the most recent completed tick. -/
theorem periodicChecker_tick_behaviour (check other : Nat → Result) :
    periodicState check 0 = periodicState other 0 ∧
    PeriodicChecker.CheckAt check 0 = Result.zero ∧
    (PeriodicChecker.CheckAt check 0).Error.isNone = true ∧
    (PeriodicChecker.CheckAt check 0).Message = "" ∧
    ∀ n : Nat, PeriodicChecker.CheckAt check (n + 1) = check n :=
  ⟨rfl, rfl, rfl, rfl, fun _ => rfl⟩

/-- C2: registering a name that already exists panics with
"Check already exists: "+name and leaves the checker stored under that name
untouched (no overwrite, no merge). -/
theorem register_duplicate_fatal (registry : Registry) (name : String)
    (check : Checker) (h : registry.names.contains name = true) :
    (registry.RegisterCore name check).panicMsg =
      some ("Check already exists: " ++ name) ∧
    (registry.RegisterCore name check).post.registeredChecks.lookup name =
      registry.registeredChecks.lookup name := by
  have hmem : name ∈ registry.names := (names_contains_iff registry name).mp h
  constructor <;> simp [Registry.RegisterCore, hmem]

/-- A registry holding one check named "a". -/
def regDup : Registry := { registeredChecks := [("a", cHealthy)] }

/-- Witness for C2 at a concrete duplicate registration. -/
theorem register_duplicate_fatal_witness :
    (regDup.RegisterCore "a" cUnhealthy).panicMsg =
      some ("Check already exists: " ++ "a") ∧
    (regDup.RegisterCore "a" cUnhealthy).post.registeredChecks.lookup "a" =
      regDup.registeredChecks.lookup "a" :=
  register_duplicate_fatal regDup "a" cUnhealthy (by decide)

/-- C10: when Register hits a duplicate name, the panic fires before the
insertion statement, so the whole mapping after the call is exactly the
mapping before it. -/
theorem register_duplicate_leaves_registry (registry : Registry) (name : String)
    (check : Checker) (h : registry.names.contains name = true) :
    (registry.RegisterCore name check).post = registry := by
  have hmem : name ∈ registry.names := (names_contains_iff registry name).mp h
  simp [Registry.RegisterCore, hmem]

/-- Witness for C10 at a concrete duplicate registration. -/
theorem register_duplicate_leaves_registry_witness :
    (regDup.RegisterCore "a" cHealthy).post = regDup :=
  register_duplicate_leaves_registry regDup "a" cHealthy (by decide)

/-- C9: calling Register through a nil receiver does not fail: it operates
on the default registry, and (when the name is fresh) the registration lands
in the default registry's mapping. -/
theorem register_nil_receiver (defaultRegistry : Registry) (name : String)
    (check : Checker) (h : name ∉ defaultRegistry.names) :
    Registry.Register none defaultRegistry name check =
      defaultRegistry.RegisterCore name check ∧
    (Registry.Register none defaultRegistry name check).panicMsg = none ∧
    (name, check) ∈
      (Registry.Register none defaultRegistry name check).post.registeredChecks := by
  refine ⟨rfl, ?_, ?_⟩
  · simp [Registry.Register, Registry.RegisterCore, h]
  · simp [Registry.Register, Registry.RegisterCore, h]

/-- Witness for C9: a nil-receiver registration into an empty default
registry. -/
theorem register_nil_receiver_witness :
    Registry.Register none NewRegistry "a" cHealthy =
      NewRegistry.RegisterCore "a" cHealthy ∧
    (Registry.Register none NewRegistry "a" cHealthy).panicMsg = none ∧
    ("a", cHealthy) ∈
      (Registry.Register none NewRegistry "a" cHealthy).post.registeredChecks :=
  register_nil_receiver NewRegistry "a" cHealthy (by simp [NewRegistry, Registry.names])

/-- C3: every sequence of registrations with unique names succeeds, and
CheckStatus on the resulting registry returns exactly one entry per
registered name, whose healthy field is true exactly when that checker's
Result has a nil error and whose message equals that Result's Message. -/
theorem checkStatus_of_registrations (entries : List (String × Checker))
    (huniq : (entries.map Prod.fst).Nodup) :
    (registerSeq entries).panicMsg = none ∧
    ((registerSeq entries).post.CheckStatus).map Prod.fst = entries.map Prod.fst ∧
    ∀ n c, (n, c) ∈ entries →
      ((registerSeq entries).post.CheckStatus).lookup n =
        some { Healthy := (c.Check).Error.isNone, Message := (c.Check).Message } := by
  rw [registerSeq_nodup entries huniq]
  refine ⟨rfl, ?_, ?_⟩
  · simp [Registry.CheckStatus, List.map_map, Function.comp]
  · intro n c hmem
    exact checkStatus_lookup entries huniq n c hmem

/-- Witness for C3: two unique registrations; looking up the second finds
its evaluated result. -/
theorem checkStatus_of_registrations_witness :
    ((registerSeq regEntries).post.CheckStatus).lookup "b" =
      some { Healthy := (cUnhealthy.Check).Error.isNone,
             Message := (cUnhealthy.Check).Message } :=
  (checkStatus_of_registrations regEntries (by decide)).2.2 "b" cUnhealthy
    (List.Mem.tail _ (List.Mem.head _))

/-- C1: on a GET request, StatusHandler responds 503 when at least one entry
of the computed Status is unhealthy, and 200 when every entry is healthy
(vacuously including the empty registry). -/
theorem statusHandler_get_code (registry : Registry) :
    ((∃ kv ∈ registry.CheckStatus, kv.2.Healthy = false) →
      ∃ resp, StatusHandler goJson "GET" registry = some resp ∧ resp.code = 503) ∧
    ((∀ kv ∈ registry.CheckStatus, kv.2.Healthy = true) →
      ∃ resp, StatusHandler goJson "GET" registry = some resp ∧ resp.code = 200) := by
  constructor
  · rintro ⟨kv, hmem, hkv⟩
    have hany : registry.CheckStatus.any (fun kv => !kv.2.Healthy) = true :=
      List.any_eq_true.mpr ⟨kv, hmem, by simp [hkv]⟩
    have hh : StatusHandler goJson "GET" registry =
        some { code := 503
               contentType := some "application/json; charset=utf-8"
               contentLength := some (jsonEncodeStatus registry.CheckStatus).length
               body := jsonEncodeStatus registry.CheckStatus } := by
      simp [StatusHandler, isFailingLoop_eq_any, hany, statusResponse, goJson]
    exact ⟨_, hh, rfl⟩
  · intro hall
    have hany : registry.CheckStatus.any (fun kv => !kv.2.Healthy) = false := by
      rw [List.any_eq_false]
      intro kv hmem
      simp [hall kv hmem]
    have hh : StatusHandler goJson "GET" registry =
        some { code := 200
               contentType := some "application/json; charset=utf-8"
               contentLength := some (jsonEncodeStatus registry.CheckStatus).length
               body := jsonEncodeStatus registry.CheckStatus } := by
      simp [StatusHandler, isFailingLoop_eq_any, hany, statusResponse, goJson]
    exact ⟨_, hh, rfl⟩

/-- Witness for C1: a registry with an unhealthy check gets 503, a registry
with only healthy checks gets 200. -/
theorem statusHandler_get_code_witness :
    (∃ resp, StatusHandler goJson "GET" regOneUnhealthy = some resp ∧
      resp.code = 503) ∧
    (∃ resp, StatusHandler goJson "GET" regAllHealthy = some resp ∧
      resp.code = 200) :=
  ⟨(statusHandler_get_code regOneUnhealthy).1 (by decide),
   (statusHandler_get_code regAllHealthy).2 (by decide)⟩

/-- C6 counterexample: a non-GET request is answered by http.NotFound, whose
body is the text "404 page not found" plus a newline, not the empty body the
claim states. -/
theorem statusHandler_nonget_body_not_empty :
    StatusHandler goJson "POST" NewRegistry = some notFoundResponse ∧
    notFoundResponse.code = 404 ∧
    notFoundResponse.body ≠ "" := by
  refine ⟨by simp [StatusHandler], rfl, by decide⟩

/-- C6 amended: every non-GET request to the endpoint is answered with
status 404 and the standard library's fixed not-found body
"404 page not found" plus a newline, regardless of registered checks. -/
theorem statusHandler_nonget (m : Marshaller) (method : String)
    (registry : Registry) (h : method ≠ "GET") :
    StatusHandler m method registry = some notFoundResponse ∧
    notFoundResponse.code = 404 ∧
    notFoundResponse.body = "404 page not found\n" := by
  refine ⟨by simp [StatusHandler, h], rfl, rfl⟩

/-- Witness for the amended C6 at a concrete PUT request. -/
theorem statusHandler_nonget_witness :
    StatusHandler goJson "PUT" NewRegistry = some notFoundResponse ∧
    notFoundResponse.code = 404 ∧
    notFoundResponse.body = "404 page not found\n" :=
  statusHandler_nonget goJson "PUT" NewRegistry (by decide)

/-- C7: when marshalling the primary Status body fails, statusResponse
responds 500 with whatever the fallback marshal produces — which, for the
real encoder, is the fixed server-error body — and when the fallback marshal
fails too, it writes no response at all. -/
theorem statusResponse_fallback (m : Marshaller) (status : Nat) (checks : Status)
    (e : String) (hfail : m.marshalStatus checks = Except.error e) :
    (∀ p, m.marshalServerError "Could not parse error message" = Except.ok p →
      statusResponse m status checks =
        some { code := 500
               contentType := some "application/json; charset=utf-8"
               contentLength := some p.length
               body := p }) ∧
    (∀ e2, m.marshalServerError "Could not parse error message" = Except.error e2 →
      statusResponse m status checks = none) ∧
    (m.marshalServerError "Could not parse error message" =
        goJson.marshalServerError "Could not parse error message" →
      statusResponse m status checks =
        some { code := 500
               contentType := some "application/json; charset=utf-8"
               contentLength := some serverErrorBody.length
               body := serverErrorBody }) := by
  have hbody : goJson.marshalServerError "Could not parse error message" =
      Except.ok serverErrorBody := by
    show Except.ok (jsonEncodeServerError "Could not parse error message") = _
    rw [show jsonEncodeServerError "Could not parse error message" = serverErrorBody
        from by decide]
  refine ⟨?_, ?_, ?_⟩
  · intro p hp
    simp [statusResponse, hfail, hp]
  · intro e2 h2
    simp [statusResponse, hfail, h2]
  · intro hgo
    have hok := hgo.trans hbody
    simp [statusResponse, hfail, hok]

/-- A marshaller whose primary Status marshal fails while the fallback
behaves like the real encoder. -/
def badStatusMarshaller : Marshaller :=
  { marshalStatus := fun _ => Except.error "marshal failed"
    marshalServerError := goJson.marshalServerError }

/-- Witness for C7: a failing primary marshal yields the fixed 500 fallback
response. -/
theorem statusResponse_fallback_witness :
    statusResponse badStatusMarshaller 200 [] =
      some { code := 500
             contentType := some "application/json; charset=utf-8"
             contentLength := some serverErrorBody.length
             body := serverErrorBody } :=
  (statusResponse_fallback badStatusMarshaller 200 [] "marshal failed" rfl).2.2 rfl

/-- C8 counterexample: CheckStatus installs no recover, so a registry whose
single checker panics makes CheckStatus itself panic instead of producing a
failed entry. -/
theorem checkStatus_panic_not_caught :
    checkStatusExc [("bad", panickingChecker "checker exploded")] =
      Except.error "checker exploded" := rfl

/-- C8 amended: a panic raised inside a registered Checker's Check() escapes
CheckStatus: with every earlier checker returning normally, the first
panicking checker aborts the aggregation and CheckStatus panics with the
same value. -/
theorem checkStatus_panic_escapes (pre post : List (String × PChecker))
    (name : String) (p : GoPanic)
    (hpre : ∀ kv ∈ pre, ∃ r, kv.2 () = Except.ok r) :
    checkStatusExc (pre ++ (name, panickingChecker p) :: post) =
      Except.error p := by
  induction pre with
  | nil => rfl
  | cons kv rest ih =>
      obtain ⟨k, v⟩ := kv
      obtain ⟨r, hr⟩ := hpre (k, v) (List.mem_cons_self _ _)
      have hr2 : v () = Except.ok r := hr
      have ih2 := ih fun kv2 h2 => hpre kv2 (List.mem_cons_of_mem _ h2)
      simp [checkStatusExc, hr2, ih2, Except.map]

/-- A checker that returns normally with the zero Result. -/
def okChecker : PChecker := fun _ => Except.ok Result.zero

/-- Witness for the amended C8: one well-behaved checker followed by a
panicking one aborts the aggregation with the panic value. -/
theorem checkStatus_panic_escapes_witness :
    checkStatusExc
        [("ok", okChecker), ("bad", panickingChecker "checker exploded")] =
      Except.error "checker exploded" :=
  checkStatus_panic_escapes [("ok", okChecker)] [] "bad" "checker exploded"
    (by
      intro kv h
      rcases List.mem_singleton.mp h with rfl
      exact ⟨Result.zero, rfl⟩)
